import Mathlib

/-!
Verification of the Trachemys habitat-partitioning pipeline.

Shallow embedding of the repository's Python sources:
* `generate_data.py` — synthetic dataset generation (`generate_habitat_data`),
  with numpy's pseudo-random draws modelled as an explicit stream of rationals
  consumed in program order, `np.random.normal mu sigma n` as
  `mu + sigma * z` over `n` consecutive raw draws, and `np.clip` exactly as
  numpy documents it.
* `analyze_habitat.py` — `contingency_analysis` (via an embedding of
  `pandas.crosstab` and `scipy.stats.chi2_contingency`),
  `calculate_occurrence_rates`, `habitat_similarity`, `summarize_findings`.
* `visualize_results.py` — the occurrence-rate aggregations recomputed by
  `plot_occurrence_by_habitat` and `plot_heatmap`.

Real-valued data is modelled over `ℚ` (the float values the program
manipulates are decimal literals and arithmetic on them); `NaN` results of
`pandas.Series.std` are modelled as `none`; the chi-square survival function
is modelled over `ℝ` by the tail mass of the Gamma(k/2, rate 1/2) measure.
-/

/-- The three species columns of the dataset: `RGS`, `RES`, `PH`
(`species = ['RGS', 'RES', 'PH']` in both analyzer and renderer). -/
inductive Species : Type
  | RGS : Species
  | RES : Species
  | PH : Species
deriving DecidableEq

/-- The fixed species iteration order `['RGS', 'RES', 'PH']`. -/
def speciesList : List Species := [Species.RGS, Species.RES, Species.PH]

/-- One row of the generated dataset: `observation_id`, `water_body_type`,
the four continuous covariates and the three presence indicators
(`generate_data.py`, the `obs` dict of `generate_habitat_data`). -/
structure Observation : Type where
  observation_id : Nat
  water_body_type : String
  salinity_ppt : ℚ
  pH : ℚ
  temperature_C : ℚ
  dissolved_oxygen_mg_L : ℚ
  RGS_present : Nat
  RES_present : Nat
  PH_present : Nat
deriving DecidableEq

/-- Column access `df[f'{species}_present']` for one row. -/
def present (sp : Species) (o : Observation) : Nat :=
  match sp with
  | Species.RGS => o.RGS_present
  | Species.RES => o.RES_present
  | Species.PH => o.PH_present

/-! ## Generator (`generate_data.py`) -/

/-- The state of numpy's global pseudo-random generator, abstracted as a
stream of raw draws plus a cursor.  `np.random.seed(42)` fixes the stream;
each draw consumes one stream element. -/
structure RNG : Type where
  stream : Nat → ℚ
  idx : Nat

/-- Consume one raw draw. -/
def RNG.next (g : RNG) : ℚ × RNG :=
  (g.stream g.idx, ⟨g.stream, g.idx + 1⟩)

/-- Consume `n` raw draws in order. -/
def drawList : Nat → RNG → List ℚ × RNG
  | 0, g => ([], g)
  | n + 1, g =>
    let p := g.next
    let q := drawList n p.2
    (p.1 :: q.1, q.2)

/-- Embedding of `np.random.normal(mu, sigma, n)`: `n` independent draws, each
`mu + sigma * z` for a raw standard draw `z`. -/
def np_random_normal (mu sigma : ℚ) (n : Nat) (g : RNG) : List ℚ × RNG :=
  let q := drawList n g
  (q.1.map (fun z => mu + sigma * z), q.2)

/-- Embedding of `np.random.random()`: one raw uniform draw. -/
def np_random_random (g : RNG) : ℚ × RNG := g.next

/-- Embedding of `np.clip(x, lo, hi) = min(max(x, lo), hi)` (numpy applies the lower
bound first, then the upper bound). -/
def np_clip (x lo hi : ℚ) : ℚ := min (max x lo) hi

/-- Embedding of `water_types = ['Clear spring fed pond', 'vegetated pond', 'Oxbow analog']`
(`generate_data.py` line 32). -/
def water_types : List String :=
  ["Clear spring fed pond", "vegetated pond", "Oxbow analog"]

/-- Embedding of `rgs_prob = 0.85 if water_type == 'Clear spring fed pond' else
(0.30 if water_type == 'Oxbow analog' else 0.05)`. -/
def rgs_prob (water_type : String) : ℚ :=
  if water_type = "Clear spring fed pond" then 0.85
  else if water_type = "Oxbow analog" then 0.30 else 0.05

/-- Embedding of `res_prob = 0.90 if water_type == 'Oxbow analog' else
(0.25 if water_type == 'vegetated pond' else 0.02)`. -/
def res_prob (water_type : String) : ℚ :=
  if water_type = "Oxbow analog" then 0.90
  else if water_type = "vegetated pond" then 0.25 else 0.02

/-- Embedding of `ph_prob = 0.85 if water_type == 'vegetated pond' else
(0.50 if water_type == 'Oxbow analog' else 0.45)`. -/
def ph_prob (water_type : String) : ℚ :=
  if water_type = "vegetated pond" then 0.85
  else if water_type = "Oxbow analog" then 0.50 else 0.45

/-- The `if/elif/else` on `water_type` drawing the four covariate arrays
(salinity, pH, temperature, dissolved oxygen — in program order) with the
hard-coded per-habitat normal parameters. -/
def envDraws (water_type : String) (n : Nat) (g : RNG) :
    (List ℚ × List ℚ × List ℚ × List ℚ) × RNG :=
  if water_type = "Clear spring fed pond" then
    let a := np_random_normal 0.2 0.1 n g
    let b := np_random_normal 7.4 0.3 n a.2
    let c := np_random_normal 12 3 n b.2
    let d := np_random_normal 9.0 1.0 n c.2
    ((a.1, b.1, c.1, d.1), d.2)
  else if water_type = "vegetated pond" then
    let a := np_random_normal 0.6 0.4 n g
    let b := np_random_normal 7.0 0.5 n a.2
    let c := np_random_normal 16 4 n b.2
    let d := np_random_normal 7.5 1.5 n c.2
    ((a.1, b.1, c.1, d.1), d.2)
  else
    let a := np_random_normal 1.0 0.6 n g
    let b := np_random_normal 7.8 0.6 n a.2
    let c := np_random_normal 17 4 n b.2
    let d := np_random_normal 7.2 1.3 n c.2
    ((a.1, b.1, c.1, d.1), d.2)

/-- The inner `for i in range(n_habitat_samples)` loop: one observation per
index, taking the `i`-th clipped covariates, drawing the three Bernoulli
presence indicators in order, and appending to `data`
(`observation_id = len(data) + 1` is threaded as `startId`). -/
def buildRows (water_type : String) :
    List ℚ → List ℚ → List ℚ → List ℚ → Nat → RNG → List Observation × RNG
  | s :: ss, p :: ps, t :: ts, d :: ds, startId, g =>
    let u1 := np_random_random g
    let u2 := np_random_random u1.2
    let u3 := np_random_random u2.2
    let o : Observation :=
      { observation_id := startId
        water_body_type := water_type
        salinity_ppt := s
        pH := p
        temperature_C := t
        dissolved_oxygen_mg_L := d
        RGS_present := if u1.1 < rgs_prob water_type then 1 else 0
        RES_present := if u2.1 < res_prob water_type then 1 else 0
        PH_present := if u3.1 < ph_prob water_type then 1 else 0 }
    let rest := buildRows water_type ss ps ts ds (startId + 1) u3.2
    (o :: rest.1, rest.2)
  | _, _, _, _, _, g => ([], g)

/-- One iteration of the outer `for water_type in water_types` loop:
draw the covariate arrays, clip them to the fixed realistic ranges
(lines 64–67), then build the rows. -/
def genBlock (water_type : String) (nH : Nat) (startId : Nat) (g : RNG) :
    List Observation × RNG :=
  let e := envDraws water_type nH g
  let salinity := e.1.1.map (fun x => np_clip x 0 40)
  let ph := e.1.2.1.map (fun x => np_clip x 6 9)
  let temperature := e.1.2.2.1.map (fun x => np_clip x 0 35)
  let dox := e.1.2.2.2.map (fun x => np_clip x 2 12)
  buildRows water_type salinity ph temperature dox startId e.2

/-- The outer loop over the habitat-type list, threading the RNG state and
the running length of `data` (so `observation_id = len(data) + 1`). -/
def genLoop : List String → Nat → Nat → RNG → List Observation × RNG
  | [], _, _, g => ([], g)
  | wt :: rest, nH, startId, g =>
    let b := genBlock wt nH startId g
    let r := genLoop rest nH (startId + b.1.length) b.2
    (b.1 ++ r.1, r.2)

/-- Embedding of `generate_habitat_data(n_samples)`: for each of the three water body
types generate `n_samples // 3` observations (`n_habitat_samples =
n_samples // 3`, line 39), starting from RNG state `g` (the state numpy's
global generator holds after `np.random.seed(42)` in a fresh run). -/
def generate_habitat_data (n_samples : Nat) (g : RNG) : List Observation :=
  (genLoop water_types (n_samples / 3) 1 g).1

/-! ## Analyzer (`analyze_habitat.py`) -/

/-- Embedding of `pandas.Series.unique()`: the distinct values in order of first
appearance. -/
def uniqueFirst {α : Type} [DecidableEq α] : List α → List α
  | [] => []
  | x :: xs => x :: uniqueFirst (xs.filter (fun y => y ≠ x))
termination_by l => l.length
decreasing_by
  exact Nat.lt_succ_of_le (List.length_filter_le _ _)

/-- Embedding of `df[df['water_body_type'] == water_type]`: the per-habitat subset. -/
def habitatSubset (ds : List Observation) (water_type : String) :
    List Observation :=
  ds.filter (fun o => o.water_body_type = water_type)

/-- One record appended to `occurrence_data` inside
`calculate_occurrence_rates`. -/
structure OccRecord : Type where
  species : Species
  water_body_type : String
  occurrences : Nat
  n_observations : Nat
  occurrence_rate : ℚ
deriving DecidableEq

/-- The body of the two nested loops of `calculate_occurrence_rates`:
`occurrences = habitat_subset[f'{species}_present'].sum()`,
`rate = (occurrences / n_observations) * 100`. -/
def occRecord (ds : List Observation) (water_type : String) (sp : Species) :
    OccRecord :=
  let habitat_subset := habitatSubset ds water_type
  let occurrences := (habitat_subset.map (present sp)).sum
  { species := sp
    water_body_type := water_type
    occurrences := occurrences
    n_observations := habitat_subset.length
    occurrence_rate := ((occurrences : ℚ) / habitat_subset.length) * 100 }

/-- Embedding of `calculate_occurrence_rates`: iterate the habitat types in
`df['water_body_type'].unique()` order, then the species in `speciesList`
order, appending one record each. -/
def calculate_occurrence_rates (ds : List Observation) : List OccRecord :=
  (uniqueFirst (ds.map (fun o => o.water_body_type))).flatMap
    (fun water_type => speciesList.map (fun sp => occRecord ds water_type sp))

/-- Python's `max(x :: xs, key)`: scan left to right, replacing the current
best only on a strictly greater key, so the first maximum wins. -/
def pyMax {α : Type} (key : α → ℚ) (x : α) (xs : List α) : α :=
  xs.foldl (fun best y => if key best < key y then y else best) x

/-- Embedding of `summarize_findings` for one species: filter the occurrence records to
that species and take `max(species_data, key=lambda x: x['occurrence_rate'])`
(`None` models the `ValueError` Python's `max` raises on an empty list). -/
def summarize_findings (ds : List Observation) (sp : Species) :
    Option OccRecord :=
  match (calculate_occurrence_rates ds).filter (fun r => r.species = sp) with
  | [] => none
  | x :: xs => some (pyMax (fun r => r.occurrence_rate) x xs)

/-- Embedding of `pandas.Series.mean()`: sum divided by length. -/
def pdSeriesMean (xs : List ℚ) : ℚ := xs.sum / xs.length

/-- Embedding of `pandas.Series.std()` with the default `ddof = 1`, represented by its
square (the unbiased sample variance), since the square root of a rational
is irrational in general: `Σ (x - mean)² / (n - 1)` for `n ≥ 2` and the
`NaN` that pandas produces for `n ≤ 1` encoded as `none`.  The reported
standard deviation is the square root of this value, so it is `NaN`/defined
exactly when this value is. -/
def pdSeriesStdSq (xs : List ℚ) : Option ℚ :=
  if xs.length ≤ 1 then none
  else some ((xs.map (fun x => (x - pdSeriesMean xs) ^ 2)).sum /
    ((xs.length : ℚ) - 1))

/-- The `stats` dict built per habitat type by `habitat_similarity`
(standard deviations carried as their squares, `NaN` as `none`). -/
structure HabStats : Type where
  salinity_mean : ℚ
  salinity_std : Option ℚ
  pH_mean : ℚ
  pH_std : Option ℚ
  temperature_mean : ℚ
  temperature_std : Option ℚ
  dissolved_oxygen_mean : ℚ
  dissolved_oxygen_std : Option ℚ
deriving DecidableEq

/-- Embedding of `habitat_similarity`: per habitat type (in `unique()` order), the mean
and standard deviation of each continuous covariate over the habitat
subset. -/
def habitat_similarity (ds : List Observation) : List (String × HabStats) :=
  (uniqueFirst (ds.map (fun o => o.water_body_type))).map
    (fun water_type =>
      let sub := habitatSubset ds water_type
      (water_type,
        { salinity_mean := pdSeriesMean (sub.map (fun o => o.salinity_ppt))
          salinity_std := pdSeriesStdSq (sub.map (fun o => o.salinity_ppt))
          pH_mean := pdSeriesMean (sub.map (fun o => o.pH))
          pH_std := pdSeriesStdSq (sub.map (fun o => o.pH))
          temperature_mean := pdSeriesMean (sub.map (fun o => o.temperature_C))
          temperature_std := pdSeriesStdSq (sub.map (fun o => o.temperature_C))
          dissolved_oxygen_mean :=
            pdSeriesMean (sub.map (fun o => o.dissolved_oxygen_mg_L))
          dissolved_oxygen_std :=
            pdSeriesStdSq (sub.map (fun o => o.dissolved_oxygen_mg_L)) }))

/-! ### Contingency analysis: `pandas.crosstab` and
`scipy.stats.chi2_contingency` -/

/-- Python string order: lexicographic on code points (what `pandas.crosstab`
sorts its row labels by). -/
def pyStrLe (a b : String) : Bool :=
  let rec go : List Char → List Char → Bool
    | [], _ => true
    | _ :: _, [] => false
    | c :: cs, d :: ds =>
      if c.toNat < d.toNat then true
      else if d.toNat < c.toNat then false
      else go cs ds
  go a.data b.data

/-- Insertion into a list sorted by `le`. -/
def orderedInsertBy {α : Type} (le : α → α → Bool) (a : α) : List α → List α
  | [] => [a]
  | b :: l => if le a b then a :: b :: l else b :: orderedInsertBy le a l

/-- Insertion sort by `le` (the ascending sort `pandas.crosstab` applies to
its row and column labels). -/
def sortBy {α : Type} (le : α → α → Bool) : List α → List α
  | [] => []
  | a :: l => orderedInsertBy le a (sortBy le l)

/-- The row labels of `pd.crosstab(df['water_body_type'], ...)`: the distinct
habitat types, sorted ascending. -/
def crosstabRows (ds : List Observation) : List String :=
  sortBy pyStrLe (uniqueFirst (ds.map (fun o => o.water_body_type)))

/-- The column labels of `pd.crosstab(..., df[f'{species}_present'])`: the
distinct presence values, sorted ascending. -/
def crosstabCols (ds : List Observation) (sp : Species) : List Nat :=
  sortBy (fun a b => a ≤ b) (uniqueFirst (ds.map (present sp)))

/-- Embedding of `pd.crosstab(df['water_body_type'], df[f'{species}_present'])`: the
habitat-type × presence frequency table. -/
def crosstab (ds : List Observation) (sp : Species) : List (List Nat) :=
  (crosstabRows ds).map (fun r =>
    (crosstabCols ds sp).map (fun c =>
      (ds.filter (fun o => o.water_body_type = r ∧ present sp o = c)).length))

/-- Embedding of `observed.shape[0]`. -/
def numRows (t : List (List Nat)) : Nat := t.length

/-- Embedding of `observed.shape[1]` (tables are rectangular, so the first row's length). -/
def numCols (t : List (List Nat)) : Nat := ((t.head?).map List.length).getD 0

/-- The grand total of the table. -/
def grandTotal (t : List (List Nat)) : Nat := (t.map List.sum).sum

/-- The row margins of the table. -/
def rowSums (t : List (List Nat)) : List Nat := t.map List.sum

/-- The column margins of the table. -/
def colSums (t : List (List Nat)) : List Nat := (t.transpose).map List.sum

/-- Embedding of `scipy.stats.contingency.expected_freq`: `outer(rowsums, colsums) /
total`. -/
def expectedFreq (t : List (List Nat)) : List (List ℚ) :=
  (rowSums t).map (fun (ri : Nat) =>
    (colSums t).map (fun (cj : Nat) =>
      ((ri : ℚ) * (cj : ℚ)) / (grandTotal t : ℚ)))

/-- Embedding of `dof = expected.size - sum(expected.shape) + expected.ndim - 1` with
`ndim = 2`, computed over `ℤ` as scipy computes it over Python ints. -/
def dofOf (t : List (List Nat)) : ℤ :=
  (numRows t * numCols t : ℤ) - ((numRows t : ℤ) + (numCols t : ℤ)) + 2 - 1

/-- Embedding of `np.sign` on a rational. -/
def npSign (q : ℚ) : ℚ := if 0 < q then 1 else if q < 0 then -1 else 0

/-- Yates' continuity correction applied by `chi2_contingency` when
`dof == 1`: move each observed count toward its expected value by
`min(0.5, |expected - observed|)`. -/
def yatesAdjust (obs expected : List (List ℚ)) : List (List ℚ) :=
  (obs.zip expected).map (fun rp =>
    (rp.1.zip rp.2).map (fun p => p.1 + min (1 / 2) |p.2 - p.1| * npSign (p.2 - p.1)))

/-- The Pearson statistic `sum((observed - expected)**2 / expected)`. -/
def pearsonStat (obs expected : List (List ℚ)) : ℚ :=
  ((obs.zip expected).map (fun rp =>
    ((rp.1.zip rp.2).map (fun p => (p.1 - p.2) ^ 2 / p.2)).sum)).sum

/-- The statistic and degrees of freedom reported by `chi2_contingency`. -/
structure Chi2Out : Type where
  statistic : ℚ
  dof : ℤ
deriving DecidableEq

/-- Embedding of `scipy.stats.chi2_contingency(observed, correction=True)` up to the
p-value (treated separately as `pValue`): raise on an empty table, raise on a
zero expected frequency, return statistic `0` with `dof = 0` in the
degenerate one-nontrivial-dimension case, apply Yates' correction when
`dof == 1`, and otherwise return the Pearson statistic. -/
def chi2_contingency (t : List (List Nat)) : Except String Chi2Out :=
  if numRows t * numCols t = 0 then
    Except.error "No data; observed has size 0."
  else
    let expected := expectedFreq t
    if expected.any (fun row => row.any (fun e => e = 0)) then
      Except.error
        "The internally computed table of expected frequencies has a zero element."
    else
      let d := dofOf t
      if d = 0 then Except.ok ⟨0, 0⟩
      else
        let obsQ : List (List ℚ) :=
          t.map (fun row => row.map (fun (x : Nat) => (x : ℚ)))
        let adjusted := if d = 1 then yatesAdjust obsQ expected else obsQ
        Except.ok ⟨pearsonStat adjusted expected, d⟩

/-- The per-species body of `contingency_analysis`: build the contingency
table from the dataset and run the chi-square test; a raised `ValueError`
aborts the analysis (the `Except.error` case). -/
def contingency_analysis (ds : List Observation) (sp : Species) :
    Except String Chi2Out :=
  chi2_contingency (crosstab ds sp)

/-- Embedding of `scipy.stats.chi2.sf(x, k)`, the survival function of the chi-square
distribution with `k` degrees of freedom, which is the Gamma distribution
with shape `k / 2` and rate `1 / 2`: the probability mass of the open tail
`(x, ∞)`.  For `dof == 0` scipy's `chi2_contingency` hard-codes `p = 1.0`. -/
noncomputable def pValue (stat : ℚ) (dof : ℤ) : ℝ :=
  if dof = 0 then 1
  else
    ((ProbabilityTheory.gammaMeasure ((dof : ℝ) / 2) (1 / 2))
      (Set.Ioi (stat : ℝ))).toReal

/-- Embedding of `significant: bool(p_value < 0.05)` from `contingency_analysis`. -/
def significant (out : Chi2Out) : Prop :=
  pValue out.statistic out.dof < 1 / 20

/-! ## Renderer (`visualize_results.py`) -/

/-- Embedding of `self.water_types = self.df['water_body_type'].unique()`. -/
def viz_water_types (ds : List Observation) : List String :=
  uniqueFirst (ds.map (fun o => o.water_body_type))

/-- The `occurrence_data` list recomputed by `plot_occurrence_by_habitat`
(lines 37–46): per habitat type, per species, the rate
`(habitat_subset[f'{species}_present'].sum() / len(habitat_subset)) * 100`. -/
def plot_occurrence_by_habitat (ds : List Observation) :
    List (String × Species × ℚ) :=
  (viz_water_types ds).flatMap (fun water_type =>
    let habitat_subset := habitatSubset ds water_type
    speciesList.map (fun sp =>
      (water_type, sp,
        ((habitat_subset.map (present sp)).sum : ℚ) / habitat_subset.length * 100)))

/-- The `heatmap_data` rows recomputed by `plot_heatmap` (lines 80–87): one
row per habitat type, one column per species, the same rate expression. -/
def plot_heatmap (ds : List Observation) : List (List ℚ) :=
  (viz_water_types ds).map (fun water_type =>
    let habitat_subset := habitatSubset ds water_type
    speciesList.map (fun sp =>
      ((habitat_subset.map (present sp)).sum : ℚ) / habitat_subset.length * 100))

/-! ## Lemmas about the generator -/

theorem drawList_length (n : Nat) (g : RNG) : (drawList n g).1.length = n := by
  induction n generalizing g with
  | zero => rfl
  | succ m ih => simp [drawList, ih]

theorem np_random_normal_length (mu sigma : ℚ) (n : Nat) (g : RNG) :
    (np_random_normal mu sigma n g).1.length = n := by
  simp [np_random_normal, drawList_length]

theorem envDraws_lengths (wt : String) (n : Nat) (g : RNG) :
    (envDraws wt n g).1.1.length = n ∧ (envDraws wt n g).1.2.1.length = n ∧
      (envDraws wt n g).1.2.2.1.length = n ∧
      (envDraws wt n g).1.2.2.2.length = n := by
  unfold envDraws
  split
  · simp [np_random_normal_length]
  · split <;> simp [np_random_normal_length]

theorem np_clip_bounds (x lo hi : ℚ) (h : lo ≤ hi) :
    lo ≤ np_clip x lo hi ∧ np_clip x lo hi ≤ hi := by
  unfold np_clip
  exact ⟨le_min (le_max_right _ _) h, min_le_right _ _⟩

theorem buildRows_length (wt : String) (sal ph t d : List ℚ) (k : Nat) (g : RNG)
    (h1 : ph.length = sal.length) (h2 : t.length = sal.length)
    (h3 : d.length = sal.length) :
    (buildRows wt sal ph t d k g).1.length = sal.length := by
  induction sal generalizing ph t d k g with
  | nil =>
    rw [List.length_nil, List.length_eq_zero] at h1 h2 h3
    subst h1; subst h2; subst h3; rfl
  | cons s ss ih =>
    cases ph with
    | nil => simp at h1
    | cons p ps =>
      cases t with
      | nil => simp at h2
      | cons u ts =>
        cases d with
        | nil => simp at h3
        | cons v ds =>
          simp only [List.length_cons, Nat.succ.injEq] at h1 h2 h3
          simp [buildRows, ih ps ts ds _ _ h1 h2 h3]

theorem buildRows_ids (wt : String) (sal ph t d : List ℚ) (k : Nat) (g : RNG)
    (h1 : ph.length = sal.length) (h2 : t.length = sal.length)
    (h3 : d.length = sal.length) :
    (buildRows wt sal ph t d k g).1.map (fun o => o.observation_id) =
      List.range' k sal.length := by
  induction sal generalizing ph t d k g with
  | nil =>
    rw [List.length_nil, List.length_eq_zero] at h1 h2 h3
    subst h1; subst h2; subst h3; rfl
  | cons s ss ih =>
    cases ph with
    | nil => simp at h1
    | cons p ps =>
      cases t with
      | nil => simp at h2
      | cons u ts =>
        cases d with
        | nil => simp at h3
        | cons v ds =>
          simp only [List.length_cons, Nat.succ.injEq] at h1 h2 h3
          simp [buildRows, List.range'_succ, ih ps ts ds _ _ h1 h2 h3]

theorem buildRows_types (wt : String) (sal ph t d : List ℚ) (k : Nat) (g : RNG)
    (h1 : ph.length = sal.length) (h2 : t.length = sal.length)
    (h3 : d.length = sal.length) :
    (buildRows wt sal ph t d k g).1.map (fun o => o.water_body_type) =
      List.replicate sal.length wt := by
  induction sal generalizing ph t d k g with
  | nil =>
    rw [List.length_nil, List.length_eq_zero] at h1 h2 h3
    subst h1; subst h2; subst h3; rfl
  | cons s ss ih =>
    cases ph with
    | nil => simp at h1
    | cons p ps =>
      cases t with
      | nil => simp at h2
      | cons u ts =>
        cases d with
        | nil => simp at h3
        | cons v ds =>
          simp only [List.length_cons, Nat.succ.injEq] at h1 h2 h3
          simp [buildRows, List.replicate_succ, ih ps ts ds _ _ h1 h2 h3]

theorem buildRows_mem (wt : String) (sal ph t d : List ℚ) (k : Nat) (g : RNG)
    (o : Observation) (ho : o ∈ (buildRows wt sal ph t d k g).1) :
    o.water_body_type = wt ∧ o.salinity_ppt ∈ sal ∧ o.pH ∈ ph ∧
      o.temperature_C ∈ t ∧ o.dissolved_oxygen_mg_L ∈ d ∧
      (o.RGS_present = 0 ∨ o.RGS_present = 1) ∧
      (o.RES_present = 0 ∨ o.RES_present = 1) ∧
      (o.PH_present = 0 ∨ o.PH_present = 1) := by
  induction sal generalizing ph t d k g with
  | nil => cases ph <;> cases t <;> cases d <;> simp [buildRows] at ho
  | cons s ss ih =>
    cases ph with
    | nil => simp [buildRows] at ho
    | cons p ps =>
      cases t with
      | nil => simp [buildRows] at ho
      | cons u ts =>
        cases d with
        | nil => simp [buildRows] at ho
        | cons v ds =>
          simp only [buildRows, List.mem_cons] at ho
          rcases ho with rfl | ho
          · refine ⟨rfl, List.mem_cons_self .., List.mem_cons_self ..,
              List.mem_cons_self .., List.mem_cons_self .., ?_, ?_, ?_⟩ <;>
              dsimp only <;> split <;> simp
          · obtain ⟨ha, hb, hc, hd, he, hf, hg, hh⟩ := ih ps ts ds _ _ ho
            exact ⟨ha, List.mem_cons_of_mem _ hb, List.mem_cons_of_mem _ hc,
              List.mem_cons_of_mem _ hd, List.mem_cons_of_mem _ he, hf, hg, hh⟩

theorem genBlock_length (wt : String) (nH k : Nat) (g : RNG) :
    (genBlock wt nH k g).1.length = nH := by
  obtain ⟨h1, h2, h3, h4⟩ := envDraws_lengths wt nH g
  unfold genBlock
  rw [buildRows_length] <;> simp [h1, h2, h3, h4]

theorem genBlock_ids (wt : String) (nH k : Nat) (g : RNG) :
    (genBlock wt nH k g).1.map (fun o => o.observation_id) =
      List.range' k nH := by
  obtain ⟨h1, h2, h3, h4⟩ := envDraws_lengths wt nH g
  unfold genBlock
  rw [buildRows_ids] <;> simp [h1, h2, h3, h4]

theorem genBlock_types (wt : String) (nH k : Nat) (g : RNG) :
    (genBlock wt nH k g).1.map (fun o => o.water_body_type) =
      List.replicate nH wt := by
  obtain ⟨h1, h2, h3, h4⟩ := envDraws_lengths wt nH g
  unfold genBlock
  rw [buildRows_types] <;> simp [h1, h2, h3, h4]

theorem genBlock_mem (wt : String) (nH k : Nat) (g : RNG) (o : Observation)
    (ho : o ∈ (genBlock wt nH k g).1) :
    o.water_body_type = wt ∧
      (0 ≤ o.salinity_ppt ∧ o.salinity_ppt ≤ 40) ∧
      (6 ≤ o.pH ∧ o.pH ≤ 9) ∧
      (0 ≤ o.temperature_C ∧ o.temperature_C ≤ 35) ∧
      (2 ≤ o.dissolved_oxygen_mg_L ∧ o.dissolved_oxygen_mg_L ≤ 12) ∧
      (o.RGS_present = 0 ∨ o.RGS_present = 1) ∧
      (o.RES_present = 0 ∨ o.RES_present = 1) ∧
      (o.PH_present = 0 ∨ o.PH_present = 1) := by
  unfold genBlock at ho
  obtain ⟨ha, hb, hc, hd, he, hf, hg, hh⟩ := buildRows_mem _ _ _ _ _ _ _ _ ho
  obtain ⟨x, -, hx⟩ := List.mem_map.mp hb
  obtain ⟨y, -, hy⟩ := List.mem_map.mp hc
  obtain ⟨z, -, hz⟩ := List.mem_map.mp hd
  obtain ⟨w, -, hw⟩ := List.mem_map.mp he
  rw [← hx, ← hy, ← hz, ← hw]
  exact ⟨ha, np_clip_bounds x 0 40 (by norm_num),
    np_clip_bounds y 6 9 (by norm_num), np_clip_bounds z 0 35 (by norm_num),
    np_clip_bounds w 2 12 (by norm_num), hf, hg, hh⟩

theorem genLoop_length (hs : List String) (nH k : Nat) (g : RNG) :
    (genLoop hs nH k g).1.length = hs.length * nH := by
  induction hs generalizing k g with
  | nil => simp [genLoop]
  | cons wt rest ih => simp [genLoop, genBlock_length, ih, Nat.succ_mul,
      Nat.add_comm]

theorem genLoop_ids (hs : List String) (nH k : Nat) (g : RNG) :
    (genLoop hs nH k g).1.map (fun o => o.observation_id) =
      List.range' k (hs.length * nH) := by
  induction hs generalizing k g with
  | nil => simp [genLoop]
  | cons wt rest ih =>
    simp only [genLoop, List.map_append, genBlock_ids, genBlock_length, ih,
      List.length_cons]
    rw [List.range'_append_1, Nat.succ_mul]

theorem genLoop_types (hs : List String) (nH k : Nat) (g : RNG) :
    (genLoop hs nH k g).1.map (fun o => o.water_body_type) =
      hs.flatMap (fun wt => List.replicate nH wt) := by
  induction hs generalizing k g with
  | nil => rfl
  | cons wt rest ih => simp [genLoop, genBlock_types, ih]

theorem genLoop_mem (hs : List String) (nH k : Nat) (g : RNG) (o : Observation)
    (ho : o ∈ (genLoop hs nH k g).1) :
    o.water_body_type ∈ hs ∧
      (0 ≤ o.salinity_ppt ∧ o.salinity_ppt ≤ 40) ∧
      (6 ≤ o.pH ∧ o.pH ≤ 9) ∧
      (0 ≤ o.temperature_C ∧ o.temperature_C ≤ 35) ∧
      (2 ≤ o.dissolved_oxygen_mg_L ∧ o.dissolved_oxygen_mg_L ≤ 12) ∧
      (o.RGS_present = 0 ∨ o.RGS_present = 1) ∧
      (o.RES_present = 0 ∨ o.RES_present = 1) ∧
      (o.PH_present = 0 ∨ o.PH_present = 1) := by
  induction hs generalizing k g with
  | nil => simp [genLoop] at ho
  | cons wt rest ih =>
    simp only [genLoop, List.mem_append] at ho
    rcases ho with ho | ho
    · obtain ⟨ha, h⟩ := genBlock_mem _ _ _ _ _ ho
      exact ⟨by simp [ha], h⟩
    · obtain ⟨ha, h⟩ := ih _ _ ho
      exact ⟨List.mem_cons_of_mem _ ha, h⟩

theorem generate_habitat_data_length (n : Nat) (g : RNG) :
    (generate_habitat_data n g).length = 3 * (n / 3) := by
  simp [generate_habitat_data, genLoop_length, water_types]

theorem generate_habitat_data_types (n : Nat) (g : RNG) :
    (generate_habitat_data n g).map (fun o => o.water_body_type) =
      List.replicate (n / 3) "Clear spring fed pond" ++
        List.replicate (n / 3) "vegetated pond" ++
        List.replicate (n / 3) "Oxbow analog" := by
  simp [generate_habitat_data, genLoop_types, water_types]

theorem generate_habitat_data_ids (n : Nat) (g : RNG) :
    (generate_habitat_data n g).map (fun o => o.observation_id) =
      List.range' 1 (3 * (n / 3)) := by
  simp [generate_habitat_data, genLoop_ids, water_types]

theorem countP_replicate {α : Type} (p : α → Bool) (n : Nat) (a : α) :
    (List.replicate n a).countP p = if p a then n else 0 := by
  induction n with
  | zero => simp
  | succ m ih => by_cases h : p a <;>
      simp [List.replicate_succ, List.countP_cons, ih, h]

/-- A concrete pseudo-random state (all raw draws zero), used to evaluate
the embedded program on concrete inputs. -/
def zeroRNG : RNG := ⟨fun _ => 0, 0⟩

/-- The dataset generated for a requested sample count of 3 from `zeroRNG`,
evaluated in closed form. -/
theorem generate_three_eval : generate_habitat_data 3 zeroRNG =
    [⟨1, "Clear spring fed pond", 0.2, 7.4, 12, 9, 1, 1, 1⟩,
     ⟨2, "vegetated pond", 0.6, 7, 16, 7.5, 1, 1, 1⟩,
     ⟨3, "Oxbow analog", 1, 7.8, 17, 7.2, 1, 1, 1⟩] := by
  simp [generate_habitat_data, genLoop, genBlock, envDraws, buildRows,
    np_random_normal, np_random_random, np_clip, drawList, RNG.next,
    water_types, rgs_prob, res_prob, ph_prob, zeroRNG]
  norm_num [min_def, max_def, Observation.mk.injEq]

/-- C1 (counterexample): for a requested sample count of 500,
`generate_habitat_data` does NOT return 500 rows — each of the three habitat
types gets exactly `500 // 3 = 166` observations and the remainder is
dropped, so the dataset has 498 rows. -/
theorem C1_counterexample :
    ¬ (generate_habitat_data 500 zeroRNG).length = 500 := by
  rw [generate_habitat_data_length]
  decide

set_option maxRecDepth 8000 in
/-- C1 (amended): for a requested sample count of 500 and the fixed set of 3
habitat types, `generate_habitat_data` returns a dataset with exactly
`3 * (500 // 3) = 498` rows, with per-habitat group sizes 166, 166, 166, in
stable generation order (all rows of the first habitat type, then the
second, then the third). -/
theorem C1_split_498 (g : RNG) :
    (generate_habitat_data 500 g).length = 498 ∧
      ((generate_habitat_data 500 g).map (fun o => o.water_body_type)).countP
          (fun s => s = "Clear spring fed pond") = 166 ∧
      ((generate_habitat_data 500 g).map (fun o => o.water_body_type)).countP
          (fun s => s = "vegetated pond") = 166 ∧
      ((generate_habitat_data 500 g).map (fun o => o.water_body_type)).countP
          (fun s => s = "Oxbow analog") = 166 ∧
      (generate_habitat_data 500 g).map (fun o => o.water_body_type) =
        List.replicate 166 "Clear spring fed pond" ++
          List.replicate 166 "vegetated pond" ++
          List.replicate 166 "Oxbow analog" := by
  have hty := generate_habitat_data_types 500 g
  have hlen := generate_habitat_data_length 500 g
  norm_num at hty hlen
  refine ⟨hlen, ?_, ?_, ?_, hty⟩ <;>
    simp [hty, List.countP_append, countP_replicate]

/-- C4: every observation of every generated dataset has salinity in
[0, 40], pH in [6, 9], temperature in [0, 35], dissolved oxygen in [2, 12],
and each species presence indicator exactly 0 or exactly 1. -/
theorem C4_generated_ranges (n : Nat) (g : RNG) (o : Observation)
    (ho : o ∈ generate_habitat_data n g) :
    (0 ≤ o.salinity_ppt ∧ o.salinity_ppt ≤ 40) ∧
      (6 ≤ o.pH ∧ o.pH ≤ 9) ∧
      (0 ≤ o.temperature_C ∧ o.temperature_C ≤ 35) ∧
      (2 ≤ o.dissolved_oxygen_mg_L ∧ o.dissolved_oxygen_mg_L ≤ 12) ∧
      (o.RGS_present = 0 ∨ o.RGS_present = 1) ∧
      (o.RES_present = 0 ∨ o.RES_present = 1) ∧
      (o.PH_present = 0 ∨ o.PH_present = 1) :=
  (genLoop_mem water_types (n / 3) 1 g o ho).2

/-- The first observation generated for a sample count of 3 from `zeroRNG`. -/
def obsW : Observation := ⟨1, "Clear spring fed pond", 0.2, 7.4, 12, 9, 1, 1, 1⟩

/-- Witness for C4 at the concrete input `generate_habitat_data 3 zeroRNG`. -/
theorem C4_witness :
    obsW ∈ generate_habitat_data 3 zeroRNG ∧
      ((0 ≤ obsW.salinity_ppt ∧ obsW.salinity_ppt ≤ 40) ∧
        (6 ≤ obsW.pH ∧ obsW.pH ≤ 9) ∧
        (0 ≤ obsW.temperature_C ∧ obsW.temperature_C ≤ 35) ∧
        (2 ≤ obsW.dissolved_oxygen_mg_L ∧ obsW.dissolved_oxygen_mg_L ≤ 12) ∧
        (obsW.RGS_present = 0 ∨ obsW.RGS_present = 1) ∧
        (obsW.RES_present = 0 ∨ obsW.RES_present = 1) ∧
        (obsW.PH_present = 0 ∨ obsW.PH_present = 1)) := by
  have hmem : obsW ∈ generate_habitat_data 3 zeroRNG := by
    rw [generate_three_eval]
    exact List.mem_cons_self ..
  exact ⟨hmem, C4_generated_ranges 3 zeroRNG obsW hmem⟩

/-- C5: the generation stage is a pure function of the seeded pseudo-random
state and the sample count — two runs from equal initial states (as produced
by the same fixed seed) yield identical datasets, every row and value
equal. -/
theorem C5_generation_deterministic (n : Nat) (g1 g2 : RNG) (h : g1 = g2) :
    generate_habitat_data n g1 = generate_habitat_data n g2 := by rw [h]

/-- Witness for C5 at a concrete seed state and sample count. -/
theorem C5_witness :
    zeroRNG = zeroRNG ∧
      generate_habitat_data 6 zeroRNG = generate_habitat_data 6 zeroRNG :=
  ⟨rfl, C5_generation_deterministic 6 zeroRNG zeroRNG rfl⟩

/-- C10: in every generated dataset the `observation_id` of the k-th row
(1-based, generation order) is exactly k — the identifiers are the
consecutive integers `1, 2, ...`, hence pairwise distinct — and the rows of
each habitat type form one contiguous block, in the fixed order of the
hard-coded habitat-type list. -/
theorem C10_observation_ids (n : Nat) (g : RNG) :
    (generate_habitat_data n g).map (fun o => o.observation_id) =
      List.range' 1 (generate_habitat_data n g).length ∧
      ((generate_habitat_data n g).map (fun o => o.observation_id)).Nodup ∧
      (generate_habitat_data n g).map (fun o => o.water_body_type) =
        List.replicate (n / 3) "Clear spring fed pond" ++
          List.replicate (n / 3) "vegetated pond" ++
          List.replicate (n / 3) "Oxbow analog" := by
  refine ⟨?_, ?_, generate_habitat_data_types n g⟩
  · rw [generate_habitat_data_length, generate_habitat_data_ids]
  · rw [generate_habitat_data_ids]
    exact List.nodup_range' _ _

/-! ## Lemmas about the analyzer -/

theorem uniqueFirst_subset {α : Type} [DecidableEq α] (l : List α) (a : α)
    (h : a ∈ uniqueFirst l) : a ∈ l := by
  induction l using uniqueFirst.induct with
  | case1 => simp [uniqueFirst] at h
  | case2 x xs ih =>
    rw [uniqueFirst] at h
    rcases List.mem_cons.mp h with rfl | h2
    · exact List.mem_cons_self ..
    · exact List.mem_cons_of_mem _ (List.mem_of_mem_filter (ih h2))

theorem sum_map_filter_split {α : Type} (p : α → Bool) (f : α → ℕ)
    (l : List α) :
    ((l.filter p).map f).sum + ((l.filter (fun x => ! p x)).map f).sum =
      (l.map f).sum := by
  induction l with
  | nil => rfl
  | cons a as ih =>
    by_cases h : p a <;>
      simp only [List.filter_cons, h, Bool.not_true, Bool.not_false, if_true,
        if_false, Bool.false_eq_true, Bool.true_eq_false, ite_true, ite_false,
        List.map_cons, List.sum_cons, List.map_nil] <;> omega

theorem sum_map_le_length {α : Type} (f : α → ℕ) (l : List α)
    (h : ∀ x ∈ l, f x ≤ 1) : (l.map f).sum ≤ l.length := by
  induction l with
  | nil => simp
  | cons a as ih =>
    simp only [List.map_cons, List.sum_cons, List.length_cons]
    have h1 := h a (List.mem_cons_self ..)
    have h2 := ih (fun x hx => h x (List.mem_cons_of_mem _ hx))
    omega

theorem sum_over_unique_aux {α β : Type} [DecidableEq β] (key : α → β)
    (f : α → ℕ) :
    ∀ (n : ℕ) (l : List α), l.length ≤ n →
      ((uniqueFirst (l.map key)).map
          (fun k => ((l.filter (fun a => key a = k)).map f).sum)).sum =
        (l.map f).sum := by
  intro n
  induction n with
  | zero =>
    intro l hl
    have hnil : l = [] := List.length_eq_zero.mp (Nat.le_zero.mp hl)
    subst hnil; simp [uniqueFirst]
  | succ n ih =>
    intro l hl
    cases l with
    | nil => simp [uniqueFirst]
    | cons a as =>
      rw [List.map_cons, uniqueFirst, List.filter_map, Function.comp_def]
      rw [List.map_cons, List.sum_cons]
      have hterm :
          (((a :: as).filter (fun x => key x = key a)).map f).sum =
            f a + ((as.filter (fun x => key x = key a)).map f).sum := by
        simp [List.filter_cons]
      have hcong :
          (uniqueFirst ((as.filter (fun b => key b ≠ key a)).map key)).map
              (fun k => (((a :: as).filter (fun x => key x = k)).map f).sum) =
            (uniqueFirst ((as.filter (fun b => key b ≠ key a)).map key)).map
              (fun k =>
                (((as.filter (fun b => key b ≠ key a)).filter
                    (fun x => key x = k)).map f).sum) := by
        apply List.map_congr_left
        intro k hk
        have hka : k ≠ key a := by
          obtain ⟨b, hb, rfl⟩ :=
            List.mem_map.mp (uniqueFirst_subset _ _ hk)
          have := List.of_mem_filter hb
          simpa using this
        have hstep1 : (a :: as).filter (fun x => key x = k) =
            as.filter (fun x => key x = k) := by
          rw [List.filter_cons]
          simp [Ne.symm hka]
        have hstep2 : (as.filter (fun b => key b ≠ key a)).filter
              (fun x => key x = k) =
            as.filter (fun x => key x = k) := by
          rw [List.filter_filter]
          apply List.filter_congr
          intro b _
          by_cases hb : key b = k
          · simp [hb, hka]
          · simp [hb]
        rw [hstep1, ← hstep2]
      rw [hcong, hterm]
      have hlen : (as.filter (fun b => key b ≠ key a)).length ≤ n := by
        have := List.length_filter_le
          (fun b => decide (key b ≠ key a)) as
        have hl2 : as.length ≤ n := by
          simpa using Nat.le_of_succ_le_succ hl
        omega
      rw [ih _ hlen]
      have hsplit := sum_map_filter_split
        (fun b => decide (key b = key a)) f as
      have hnot : (as.filter (fun x => ! decide (key x = key a))) =
          as.filter (fun b => key b ≠ key a) := by
        apply List.filter_congr
        intro b _
        simp [decide_not]
      rw [hnot] at hsplit
      simp only [List.map_cons, List.sum_cons]
      omega

theorem sum_over_unique {α β : Type} [DecidableEq β] (key : α → β)
    (f : α → ℕ) (l : List α) :
    ((uniqueFirst (l.map key)).map
        (fun k => ((l.filter (fun a => key a = k)).map f).sum)).sum =
      (l.map f).sum :=
  sum_over_unique_aux key f l.length l (le_refl _)

theorem occRecord_species (ds : List Observation) (wt : String)
    (sp : Species) : (occRecord ds wt sp).species = sp := rfl

theorem filter_speciesRow (ds : List Observation) (sp : Species)
    (hs : List String) :
    (hs.flatMap (fun wt => speciesList.map (fun s => occRecord ds wt s))).filter
        (fun r => r.species = sp) =
      hs.map (fun wt => occRecord ds wt sp) := by
  induction hs with
  | nil => rfl
  | cons wt rest ih =>
    rw [List.flatMap_cons, List.filter_append, ih, List.map_cons]
    cases sp <;> rfl

theorem records_filter_species (ds : List Observation) (sp : Species) :
    (calculate_occurrence_rates ds).filter (fun r => r.species = sp) =
      (uniqueFirst (ds.map (fun o => o.water_body_type))).map
        (fun wt => occRecord ds wt sp) :=
  filter_speciesRow ds sp _

theorem habitatSubset_length_pos (ds : List Observation) (wt : String)
    (h : wt ∈ uniqueFirst (ds.map (fun o => o.water_body_type))) :
    0 < (habitatSubset ds wt).length := by
  obtain ⟨o, ho, rfl⟩ := List.mem_map.mp (uniqueFirst_subset _ _ h)
  have hmem : o ∈ habitatSubset ds o.water_body_type :=
    List.mem_filter.mpr ⟨ho, by simp⟩
  exact List.length_pos.mpr (List.ne_nil_of_mem hmem)

theorem pyMax_step {α : Type} (key : α → ℚ) (x y : α) (ys : List α) :
    pyMax key x (y :: ys) = pyMax key (if key x < key y then y else x) ys := by
  simp [pyMax]

theorem pyMax_first_max {α : Type} (key : α → ℚ) :
    ∀ (xs : List α) (x : α),
      ∃ l1 l2, x :: xs = l1 ++ pyMax key x xs :: l2 ∧
        (∀ r ∈ l1, key r < key (pyMax key x xs)) ∧
        (∀ r ∈ l2, key r ≤ key (pyMax key x xs)) := by
  intro xs
  induction xs with
  | nil =>
    intro x
    exact ⟨[], [], rfl, by simp, by simp⟩
  | cons y ys ih =>
    intro x
    rw [pyMax_step]
    by_cases h : key x < key y
    · rw [if_pos h]
      obtain ⟨l1, l2, hdec, hl1, hl2⟩ := ih y
      cases l1 with
      | nil =>
        simp only [List.nil_append] at hdec
        injection hdec with hy hys
        refine ⟨[x], l2, ?_, ?_, hl2⟩
        · rw [← hy, ← hys]; rfl
        · intro r hr
          rw [List.mem_singleton] at hr
          subst hr
          rw [← hy]
          exact h
      | cons z l1t =>
        rw [List.cons_append] at hdec
        injection hdec with hz hrest
        refine ⟨x :: z :: l1t, l2, ?_, ?_, hl2⟩
        · rw [List.cons_append, List.cons_append, ← hrest, ← hz]
        · intro r hr
          rcases List.mem_cons.mp hr with rfl | hr2
          · have hzmax := hl1 z (List.mem_cons_self ..)
            calc key r < key y := h
              _ = key z := by rw [hz]
              _ < _ := hzmax
          · exact hl1 r hr2
    · rw [if_neg h]
      obtain ⟨l1, l2, hdec, hl1, hl2⟩ := ih x
      cases l1 with
      | nil =>
        simp only [List.nil_append] at hdec
        injection hdec with hx hys
        refine ⟨[], y :: l2, ?_, by simp, ?_⟩
        · rw [List.nil_append, ← hx, ← hys]
        · intro r hr
          rcases List.mem_cons.mp hr with rfl | hr2
          · rw [← hx]
            exact le_of_not_lt h
          · exact hl2 r hr2
      | cons z l1t =>
        rw [List.cons_append] at hdec
        injection hdec with hx hrest
        refine ⟨x :: y :: l1t, l2, ?_, ?_, hl2⟩
        · rw [List.cons_append, List.cons_append, ← hrest]
        · intro r hr
          have hzmax := hl1 z (List.mem_cons_self ..)
          rcases List.mem_cons.mp hr with rfl | hr2
          · calc key r = key z := congrArg key hx
              _ < _ := hzmax
          rcases List.mem_cons.mp hr2 with rfl | hr3
          · calc key r ≤ key x := le_of_not_lt h
              _ = key z := by rw [hx]
              _ < _ := hzmax
          · exact hl1 r (List.mem_cons_of_mem _ hr3)

/-- C3: for every dataset and species, `summarize_findings` selects the
record whose occurrence rate is maximal among that species' per-habitat
records, and on ties the one encountered first wins (every record strictly
before the selected one has a strictly smaller rate, every record after has
a smaller-or-equal rate); the per-habitat iteration order of those records
is exactly the order of first appearance of each habitat type in the
dataset. -/
theorem C3_preferred_first_max (ds : List Observation) (sp : Species)
    (r : OccRecord) (hr : summarize_findings ds sp = some r) :
    ((calculate_occurrence_rates ds).filter (fun q => q.species = sp)).map
        (fun q => q.water_body_type) =
      uniqueFirst (ds.map (fun o => o.water_body_type)) ∧
    ∃ l1 l2,
      (calculate_occurrence_rates ds).filter (fun q => q.species = sp) =
        l1 ++ r :: l2 ∧
      (∀ q ∈ l1, q.occurrence_rate < r.occurrence_rate) ∧
      (∀ q ∈ l2, q.occurrence_rate ≤ r.occurrence_rate) := by
  constructor
  · rw [records_filter_species]
    simp [occRecord, Function.comp_def]
  · unfold summarize_findings at hr
    cases hfl : (calculate_occurrence_rates ds).filter
        (fun q => q.species = sp) with
    | nil => rw [hfl] at hr; simp at hr
    | cons x xs =>
      rw [hfl] at hr
      simp only [Option.some.injEq] at hr
      obtain ⟨l1, l2, hdec, h1, h2⟩ :=
        pyMax_first_max (fun q => q.occurrence_rate) xs x
      rw [hr] at hdec h1 h2
      exact ⟨l1, l2, hdec, h1, h2⟩

/-- Presence indicators of a dataset are 0/1 valued (the Dataset invariant
of the data model; true of every generated dataset by C4). -/
def WFpresence (ds : List Observation) : Prop :=
  ∀ o ∈ ds, o.RGS_present ≤ 1 ∧ o.RES_present ≤ 1 ∧ o.PH_present ≤ 1

theorem WFpresence_present (ds : List Observation) (h : WFpresence ds)
    (sp : Species) (o : Observation) (ho : o ∈ ds) : present sp o ≤ 1 := by
  obtain ⟨h1, h2, h3⟩ := h o ho
  cases sp <;> simpa [present]

/-- C6: in every dataset with 0/1 presence indicators, every record of
`calculate_occurrence_rates` has a non-zero per-habitat observation count,
its rate equals (presence count / observation count) × 100 and lies in
[0, 100]; and for each species, the raw occurrence counts summed over the
habitat types equal the species' total presence count in the dataset. -/
theorem C6_occurrence_rates (ds : List Observation) (h : WFpresence ds) :
    (∀ r ∈ calculate_occurrence_rates ds,
        0 < r.n_observations ∧
        r.occurrence_rate = (r.occurrences : ℚ) / r.n_observations * 100 ∧
        0 ≤ r.occurrence_rate ∧ r.occurrence_rate ≤ 100) ∧
      ∀ sp : Species,
        (((calculate_occurrence_rates ds).filter
            (fun r => r.species = sp)).map (fun r => r.occurrences)).sum =
          (ds.map (present sp)).sum := by
  constructor
  · intro r hrec
    obtain ⟨wt, hwt, hr2⟩ := List.mem_flatMap.mp hrec
    obtain ⟨sp', hsp', rfl⟩ := List.mem_map.mp hr2
    have hpos := habitatSubset_length_pos ds wt hwt
    have hocc : ((habitatSubset ds wt).map (present sp')).sum ≤
        (habitatSubset ds wt).length := by
      apply sum_map_le_length
      intro o ho
      exact WFpresence_present ds h sp' o (List.mem_of_mem_filter ho)
    have hposQ : (0 : ℚ) < ((habitatSubset ds wt).length : ℚ) := by
      exact_mod_cast hpos
    refine ⟨hpos, rfl, ?_, ?_⟩
    · apply mul_nonneg _ (by norm_num)
      exact div_nonneg (by positivity) (le_of_lt hposQ)
    · have hdiv : (((habitatSubset ds wt).map (present sp')).sum : ℚ) /
          ((habitatSubset ds wt).length : ℚ) ≤ 1 := by
        rw [div_le_one hposQ]
        exact_mod_cast hocc
      calc ((occRecord ds wt sp').occurrence_rate : ℚ) =
            (((habitatSubset ds wt).map (present sp')).sum : ℚ) /
              ((habitatSubset ds wt).length : ℚ) * 100 := rfl
        _ ≤ 1 * 100 := by
            apply mul_le_mul_of_nonneg_right hdiv (by norm_num)
        _ = 100 := by norm_num
  · intro sp
    rw [records_filter_species, List.map_map]
    simp only [Function.comp_def, occRecord, habitatSubset]
    exact sum_over_unique (fun o => o.water_body_type) (present sp) ds

/-- A one-row concrete dataset used to instantiate analyzer theorems. -/
def dsA : List Observation := [⟨1, "A", 0, 7, 0, 2, 1, 0, 0⟩]

/-- Witness for C3 at the concrete dataset `dsA`. -/
theorem C3_witness :
    summarize_findings dsA Species.RGS =
        some ⟨Species.RGS, "A", 1, 1, 100⟩ ∧
      (((calculate_occurrence_rates dsA).filter
            (fun q => q.species = Species.RGS)).map
          (fun q => q.water_body_type) =
        uniqueFirst (dsA.map (fun o => o.water_body_type)) ∧
      ∃ l1 l2,
        (calculate_occurrence_rates dsA).filter
            (fun q => q.species = Species.RGS) =
          l1 ++ (⟨Species.RGS, "A", 1, 1, 100⟩ : OccRecord) :: l2 ∧
        (∀ q ∈ l1, q.occurrence_rate <
          (⟨Species.RGS, "A", 1, 1, 100⟩ : OccRecord).occurrence_rate) ∧
        (∀ q ∈ l2, q.occurrence_rate ≤
          (⟨Species.RGS, "A", 1, 1, 100⟩ : OccRecord).occurrence_rate)) := by
  have hyp : summarize_findings dsA Species.RGS =
      some ⟨Species.RGS, "A", 1, 1, 100⟩ := by
    simp [summarize_findings, calculate_occurrence_rates, uniqueFirst,
      habitatSubset, occRecord, speciesList, present, pyMax, dsA]
  exact ⟨hyp, C3_preferred_first_max dsA Species.RGS _ hyp⟩

/-- Witness for C6 at the concrete dataset `dsA`. -/
theorem C6_witness :
    WFpresence dsA ∧
      ((∀ r ∈ calculate_occurrence_rates dsA,
          0 < r.n_observations ∧
          r.occurrence_rate = (r.occurrences : ℚ) / r.n_observations * 100 ∧
          0 ≤ r.occurrence_rate ∧ r.occurrence_rate ≤ 100) ∧
        ∀ sp : Species,
          (((calculate_occurrence_rates dsA).filter
              (fun r => r.species = sp)).map (fun r => r.occurrences)).sum =
            (dsA.map (present sp)).sum) :=
  ⟨by unfold WFpresence; decide, C6_occurrence_rates dsA (by unfold WFpresence; decide)⟩

theorem pdSeriesStdSq_single (xs : List ℚ) (h : xs.length = 1) :
    pdSeriesStdSq xs = none := by
  simp [pdSeriesStdSq, h]

theorem pdSeriesStdSq_unbiased (xs : List ℚ) (h : 2 ≤ xs.length) :
    ∃ v, pdSeriesStdSq xs = some v ∧
      v * ((xs.length : ℚ) - 1) =
        (xs.map (fun x => (x - pdSeriesMean xs) ^ 2)).sum := by
  have hne : ¬ xs.length ≤ 1 := by omega
  have hq : ((xs.length : ℚ) - 1) ≠ 0 := by
    have h2 : (2 : ℚ) ≤ (xs.length : ℚ) := by exact_mod_cast h
    linarith
  exact ⟨(xs.map (fun x => (x - pdSeriesMean xs) ^ 2)).sum /
      ((xs.length : ℚ) - 1),
    by simp [pdSeriesStdSq, hne], div_mul_cancel₀ _ hq⟩

/-- C7: for every dataset and every per-habitat stats record produced by
`habitat_similarity`, each mean is the sample mean (sum over count) of the
covariate on the habitat subset; the standard deviation uses the unbiased
n − 1 divisor (its square v satisfies v·(n−1) = Σ (x − mean)² whenever
n ≥ 2); and on a habitat subset with exactly one observation every standard
deviation is NaN (`none`), not zero. -/
theorem C7_habitat_stats (ds : List Observation) (wt : String)
    (stats : HabStats) (h : (wt, stats) ∈ habitat_similarity ds) :
    (stats.salinity_mean =
        ((habitatSubset ds wt).map (fun o => o.salinity_ppt)).sum /
          ((habitatSubset ds wt).length : ℚ) ∧
      stats.pH_mean =
        ((habitatSubset ds wt).map (fun o => o.pH)).sum /
          ((habitatSubset ds wt).length : ℚ) ∧
      stats.temperature_mean =
        ((habitatSubset ds wt).map (fun o => o.temperature_C)).sum /
          ((habitatSubset ds wt).length : ℚ) ∧
      stats.dissolved_oxygen_mean =
        ((habitatSubset ds wt).map (fun o => o.dissolved_oxygen_mg_L)).sum /
          ((habitatSubset ds wt).length : ℚ)) ∧
    ((habitatSubset ds wt).length = 1 →
      stats.salinity_std = none ∧ stats.pH_std = none ∧
        stats.temperature_std = none ∧ stats.dissolved_oxygen_std = none) ∧
    (2 ≤ (habitatSubset ds wt).length →
      (∃ v, stats.salinity_std = some v ∧
        v * (((habitatSubset ds wt).length : ℚ) - 1) =
          (((habitatSubset ds wt).map (fun o => o.salinity_ppt)).map
            (fun x => (x - stats.salinity_mean) ^ 2)).sum) ∧
      (∃ v, stats.pH_std = some v ∧
        v * (((habitatSubset ds wt).length : ℚ) - 1) =
          (((habitatSubset ds wt).map (fun o => o.pH)).map
            (fun x => (x - stats.pH_mean) ^ 2)).sum) ∧
      (∃ v, stats.temperature_std = some v ∧
        v * (((habitatSubset ds wt).length : ℚ) - 1) =
          (((habitatSubset ds wt).map (fun o => o.temperature_C)).map
            (fun x => (x - stats.temperature_mean) ^ 2)).sum) ∧
      (∃ v, stats.dissolved_oxygen_std = some v ∧
        v * (((habitatSubset ds wt).length : ℚ) - 1) =
          (((habitatSubset ds wt).map (fun o => o.dissolved_oxygen_mg_L)).map
            (fun x => (x - stats.dissolved_oxygen_mean) ^ 2)).sum)) := by
  obtain ⟨wt0, hwt0, heq⟩ := List.mem_map.mp h
  obtain ⟨h1, h2⟩ := Prod.mk.injEq .. ▸ heq
  subst h1
  subst h2
  refine ⟨⟨?_, ?_, ?_, ?_⟩, ?_, ?_⟩
  · simp [pdSeriesMean]
  · simp [pdSeriesMean]
  · simp [pdSeriesMean]
  · simp [pdSeriesMean]
  · intro hlen
    refine ⟨?_, ?_, ?_, ?_⟩ <;>
      exact pdSeriesStdSq_single _ (by simpa using hlen)
  · intro hlen
    refine ⟨?_, ?_, ?_, ?_⟩
    · simpa using pdSeriesStdSq_unbiased
        ((habitatSubset ds wt0).map (fun o => o.salinity_ppt))
        (by simpa using hlen)
    · simpa using pdSeriesStdSq_unbiased
        ((habitatSubset ds wt0).map (fun o => o.pH)) (by simpa using hlen)
    · simpa using pdSeriesStdSq_unbiased
        ((habitatSubset ds wt0).map (fun o => o.temperature_C))
        (by simpa using hlen)
    · simpa using pdSeriesStdSq_unbiased
        ((habitatSubset ds wt0).map (fun o => o.dissolved_oxygen_mg_L))
        (by simpa using hlen)

/-- A three-row concrete dataset with a two-observation habitat and a
one-observation habitat. -/
def dsW : List Observation :=
  [⟨1, "A", 1, 7, 10, 3, 1, 0, 0⟩, ⟨2, "A", 3, 7, 10, 3, 0, 1, 0⟩,
   ⟨3, "B", 2, 6, 20, 5, 0, 0, 1⟩]

/-- The stats record `habitat_similarity` produces for habitat "B" of
`dsW` (a one-observation subset: all standard deviations are `none`). -/
def statsB : HabStats := ⟨2, none, 6, none, 20, none, 5, none⟩

/-- Witness for C7 at the one-observation habitat of `dsW`. -/
theorem C7_witness :
    ("B", statsB) ∈ habitat_similarity dsW ∧
      ((statsB.salinity_mean =
          ((habitatSubset dsW "B").map (fun o => o.salinity_ppt)).sum /
            ((habitatSubset dsW "B").length : ℚ) ∧
        statsB.pH_mean =
          ((habitatSubset dsW "B").map (fun o => o.pH)).sum /
            ((habitatSubset dsW "B").length : ℚ) ∧
        statsB.temperature_mean =
          ((habitatSubset dsW "B").map (fun o => o.temperature_C)).sum /
            ((habitatSubset dsW "B").length : ℚ) ∧
        statsB.dissolved_oxygen_mean =
          ((habitatSubset dsW "B").map
            (fun o => o.dissolved_oxygen_mg_L)).sum /
            ((habitatSubset dsW "B").length : ℚ)) ∧
      ((habitatSubset dsW "B").length = 1 →
        statsB.salinity_std = none ∧ statsB.pH_std = none ∧
          statsB.temperature_std = none ∧
          statsB.dissolved_oxygen_std = none) ∧
      (2 ≤ (habitatSubset dsW "B").length →
        (∃ v, statsB.salinity_std = some v ∧
          v * (((habitatSubset dsW "B").length : ℚ) - 1) =
            (((habitatSubset dsW "B").map (fun o => o.salinity_ppt)).map
              (fun x => (x - statsB.salinity_mean) ^ 2)).sum) ∧
        (∃ v, statsB.pH_std = some v ∧
          v * (((habitatSubset dsW "B").length : ℚ) - 1) =
            (((habitatSubset dsW "B").map (fun o => o.pH)).map
              (fun x => (x - statsB.pH_mean) ^ 2)).sum) ∧
        (∃ v, statsB.temperature_std = some v ∧
          v * (((habitatSubset dsW "B").length : ℚ) - 1) =
            (((habitatSubset dsW "B").map (fun o => o.temperature_C)).map
              (fun x => (x - statsB.temperature_mean) ^ 2)).sum) ∧
        (∃ v, statsB.dissolved_oxygen_std = some v ∧
          v * (((habitatSubset dsW "B").length : ℚ) - 1) =
            (((habitatSubset dsW "B").map
                (fun o => o.dissolved_oxygen_mg_L)).map
              (fun x => (x - statsB.dissolved_oxygen_mean) ^ 2)).sum))) := by
  have hyp : ("B", statsB) ∈ habitat_similarity dsW := by
    simp [habitat_similarity, uniqueFirst, habitatSubset, pdSeriesMean,
      pdSeriesStdSq, dsW, statsB]
  exact ⟨hyp, C7_habitat_stats dsW "B" statsB hyp⟩

/-- C9: the occurrence rates recomputed by the renderer are the analyzer's
occurrence rates: the grouped-bar-chart data of
`plot_occurrence_by_habitat` is exactly `calculate_occurrence_rates`
projected to (habitat, species, rate) triples, and the heatmap rows of
`plot_heatmap` flatten to exactly the analyzer's rates in the same
(habitat-major, species-minor) order, with one row per habitat type and one
column per species. -/
theorem C9_renderer_matches_analyzer (ds : List Observation) :
    plot_occurrence_by_habitat ds =
      (calculate_occurrence_rates ds).map
        (fun r => (r.water_body_type, r.species, r.occurrence_rate)) ∧
      (plot_heatmap ds).flatten =
        (calculate_occurrence_rates ds).map (fun r => r.occurrence_rate) ∧
      (plot_heatmap ds).map List.length =
        List.replicate (viz_water_types ds).length 3 := by
  refine ⟨?_, ?_, ?_⟩
  · simp [plot_occurrence_by_habitat, calculate_occurrence_rates,
      viz_water_types, List.map_flatMap, List.map_map, Function.comp_def,
      occRecord]
  · simp only [plot_heatmap, calculate_occurrence_rates, viz_water_types,
      List.map_flatMap, List.map_map, Function.comp_def, occRecord]
    rfl
  · simp [plot_heatmap, viz_water_types, List.map_map, Function.comp_def,
      speciesList, List.map_const']

/-! ## Lemmas about the contingency analysis -/

theorem expectedFreq_nonneg (t : List (List Nat)) (row : List ℚ)
    (hrow : row ∈ expectedFreq t) (e : ℚ) (he : e ∈ row) : 0 ≤ e := by
  unfold expectedFreq at hrow
  obtain ⟨ri, -, hr⟩ := List.mem_map.mp hrow
  rw [← hr] at he
  obtain ⟨cj, -, hc⟩ := List.mem_map.mp he
  rw [← hc]
  exact div_nonneg (mul_nonneg (Nat.cast_nonneg ri) (Nat.cast_nonneg cj))
    (Nat.cast_nonneg _)

theorem pearsonStat_nonneg (obs expected : List (List ℚ))
    (hexp : ∀ row ∈ expected, ∀ e ∈ row, 0 ≤ e) :
    0 ≤ pearsonStat obs expected := by
  unfold pearsonStat
  apply List.sum_nonneg
  intro x hx
  obtain ⟨⟨ro, re⟩, hmem, hx2⟩ := List.mem_map.mp hx
  rw [← hx2]
  apply List.sum_nonneg
  intro y hy
  obtain ⟨⟨o, e⟩, hmem2, hy2⟩ := List.mem_map.mp hy
  rw [← hy2]
  have hre : re ∈ expected := (List.of_mem_zip hmem).2
  have he : e ∈ re := (List.of_mem_zip hmem2).2
  exact div_nonneg (sq_nonneg _) (hexp re hre e he)

theorem dofOf_eq (t : List (List Nat)) :
    dofOf t = ((numRows t : ℤ) - 1) * ((numCols t : ℤ) - 1) := by
  unfold dofOf
  ring

theorem crosstab_numRows (ds : List Observation) (sp : Species) :
    numRows (crosstab ds sp) = (crosstabRows ds).length := by
  simp [numRows, crosstab]

theorem crosstab_numCols_eq (ds : List Observation) (sp : Species)
    (hne : crosstabRows ds ≠ []) :
    numCols (crosstab ds sp) = (crosstabCols ds sp).length := by
  unfold crosstab numCols
  cases hr : crosstabRows ds with
  | nil => exact absurd hr hne
  | cons r rest => simp

theorem pValue_nonneg (stat : ℚ) (dof : ℤ) : 0 ≤ pValue stat dof := by
  unfold pValue
  split
  · norm_num
  · exact ENNReal.toReal_nonneg

theorem pValue_le_one_of_pos (stat : ℚ) (dof : ℤ) (hd : 0 < dof) :
    pValue stat dof ≤ 1 := by
  unfold pValue
  rw [if_neg (by omega : ¬ dof = 0)]
  have hdr : (0 : ℝ) < (dof : ℝ) := by exact_mod_cast hd
  have ha : (0 : ℝ) < (dof : ℝ) / 2 := by linarith
  have hr : (0 : ℝ) < (1 : ℝ) / 2 := by norm_num
  haveI hp : MeasureTheory.IsProbabilityMeasure
      (ProbabilityTheory.gammaMeasure ((dof : ℝ) / 2) (1 / 2)) :=
    ProbabilityTheory.isProbabilityMeasureGamma ha hr
  have hle : (ProbabilityTheory.gammaMeasure ((dof : ℝ) / 2) (1 / 2))
      (Set.Ioi (stat : ℝ)) ≤ 1 := MeasureTheory.prob_le_one
  calc ((ProbabilityTheory.gammaMeasure ((dof : ℝ) / 2) (1 / 2))
        (Set.Ioi (stat : ℝ))).toReal
      ≤ (1 : ENNReal).toReal := ENNReal.toReal_mono (by simp) hle
    _ = 1 := by simp

/-- C8: whenever the chi-square test of `contingency_analysis` succeeds on
the contingency table of a dataset and species, the reported statistic is
non-negative, the reported degrees of freedom equal
(habitat-type rows − 1) × (presence columns − 1), and the reported p-value
(the chi-square survival function of the statistic, or the hard-coded 1 in
the degenerate `dof = 0` case) lies in [0, 1]. -/
theorem C8_chi2_outputs (ds : List Observation) (sp : Species)
    (out : Chi2Out) (h : contingency_analysis ds sp = Except.ok out) :
    0 ≤ out.statistic ∧
      out.dof = (((crosstabRows ds).length : ℤ) - 1) *
        (((crosstabCols ds sp).length : ℤ) - 1) ∧
      0 ≤ pValue out.statistic out.dof ∧
      pValue out.statistic out.dof ≤ 1 := by
  unfold contingency_analysis chi2_contingency at h
  by_cases hsize : numRows (crosstab ds sp) * numCols (crosstab ds sp) = 0
  · rw [if_pos hsize] at h
    exact absurd h (by simp)
  rw [if_neg hsize] at h
  have hRpos : 0 < numRows (crosstab ds sp) :=
    Nat.pos_of_ne_zero (fun hc => hsize (by rw [hc, Nat.zero_mul]))
  have hCpos : 0 < numCols (crosstab ds sp) :=
    Nat.pos_of_ne_zero (fun hc => hsize (by rw [hc, Nat.mul_zero]))
  have hrows_ne : crosstabRows ds ≠ [] := by
    intro hnil
    rw [crosstab_numRows ds sp, hnil] at hRpos
    exact absurd hRpos (by simp)
  have hdofR : dofOf (crosstab ds sp) =
      (((crosstabRows ds).length : ℤ) - 1) *
        (((crosstabCols ds sp).length : ℤ) - 1) := by
    rw [dofOf_eq, crosstab_numRows ds sp, crosstab_numCols_eq ds sp hrows_ne]
  have hdof_nonneg : 0 ≤ dofOf (crosstab ds sp) := by
    rw [dofOf_eq]
    have h1 : (1 : ℤ) ≤ (numRows (crosstab ds sp) : ℤ) := by exact_mod_cast hRpos
    have h2 : (1 : ℤ) ≤ (numCols (crosstab ds sp) : ℤ) := by exact_mod_cast hCpos
    exact mul_nonneg (by omega) (by omega)
  by_cases hzero : (expectedFreq (crosstab ds sp)).any
      (fun row => row.any (fun e => e = 0)) = true
  · rw [if_pos hzero] at h
    exact absurd h (by simp)
  rw [if_neg hzero] at h
  by_cases hd : dofOf (crosstab ds sp) = 0
  · rw [if_pos hd] at h
    simp only [Except.ok.injEq] at h
    subst h
    refine ⟨le_refl _, ?_, pValue_nonneg _ _, ?_⟩
    · rw [← hdofR, hd]
    · unfold pValue
      rw [if_pos rfl]
  · rw [if_neg hd] at h
    simp only [Except.ok.injEq] at h
    subst h
    refine ⟨?_, hdofR, pValue_nonneg _ _, ?_⟩
    · exact pearsonStat_nonneg _ _ (expectedFreq_nonneg (crosstab ds sp))
    · exact pValue_le_one_of_pos _ _ (lt_of_le_of_ne hdof_nonneg (Ne.symm hd))

/-- A four-row dataset over two habitat types in which species RGS is
uniformly absent (every `RGS_present` is 0) — a degenerate contingency
input; the third hard-coded habitat type has zero observations. -/
def dsDeg : List Observation :=
  [⟨1, "A", 0, 7, 0, 2, 0, 0, 0⟩, ⟨2, "A", 0, 7, 0, 2, 0, 0, 0⟩,
   ⟨3, "B", 0, 7, 0, 2, 0, 0, 0⟩, ⟨4, "B", 0, 7, 0, 2, 0, 0, 0⟩]

/-- C2 (refuting evaluation): on the degenerate dataset `dsDeg` — species
RGS uniformly absent, so the contingency table is the single-column
`[[2], [2]]` — `contingency_analysis` does NOT fail: `chi2_contingency`
takes scipy's `dof == 0` degenerate branch and returns statistic 0 with
`dof = 0`, the hard-coded p-value 1.0, and a `significant = False` flag,
instead of raising an error. -/
theorem C2_degenerate_returns :
    contingency_analysis dsDeg Species.RGS = Except.ok ⟨0, 0⟩ ∧
      pValue 0 0 = 1 ∧ ¬ significant ⟨0, 0⟩ := by
  have htab : crosstab dsDeg Species.RGS = [[2], [2]] := by
    simp [crosstab, crosstabRows, crosstabCols, uniqueFirst, sortBy,
      orderedInsertBy, pyStrLe, pyStrLe.go, present, dsDeg]
  have hrs : rowSums [[2], [2]] = [2, 2] := by decide
  have hcs : colSums [[2], [2]] = [4] := by decide
  have hgt : grandTotal [[2], [2]] = 4 := by decide
  have hexp : expectedFreq [[2], [2]] = [[2], [2]] := by
    rw [expectedFreq, hrs, hcs, hgt]
    norm_num
  have hdof : dofOf [[2], [2]] = 0 := by decide
  have hone : pValue 0 0 = 1 := by
    unfold pValue
    rw [if_pos rfl]
  refine ⟨?_, hone, ?_⟩
  · rw [contingency_analysis, htab, chi2_contingency]
    rw [if_neg (by decide), hexp, hdof]
    norm_num
  · unfold significant
    rw [hone]
    norm_num

/-- A four-row dataset over two habitat types with mixed RGS presence,
giving a non-degenerate 2 × 2 contingency table. -/
def dsMix : List Observation :=
  [⟨1, "A", 0, 7, 0, 2, 1, 0, 0⟩, ⟨2, "A", 0, 7, 0, 2, 0, 0, 0⟩,
   ⟨3, "B", 0, 7, 0, 2, 0, 0, 0⟩, ⟨4, "B", 0, 7, 0, 2, 1, 0, 0⟩]

/-- Witness for C8 at the concrete dataset `dsMix` (a 2 × 2 table with
`dof = 1`, exercising the Yates-corrected branch). -/
theorem C8_witness :
    contingency_analysis dsMix Species.RGS = Except.ok ⟨0, 1⟩ ∧
      (0 ≤ (⟨0, 1⟩ : Chi2Out).statistic ∧
        (⟨0, 1⟩ : Chi2Out).dof = (((crosstabRows dsMix).length : ℤ) - 1) *
          (((crosstabCols dsMix Species.RGS).length : ℤ) - 1) ∧
        0 ≤ pValue (⟨0, 1⟩ : Chi2Out).statistic (⟨0, 1⟩ : Chi2Out).dof ∧
        pValue (⟨0, 1⟩ : Chi2Out).statistic (⟨0, 1⟩ : Chi2Out).dof ≤ 1) := by
  have htab : crosstab dsMix Species.RGS = [[1, 1], [1, 1]] := by
    simp [crosstab, crosstabRows, crosstabCols, uniqueFirst, sortBy,
      orderedInsertBy, pyStrLe, pyStrLe.go, present, dsMix]
  have hchi : chi2_contingency [[1, 1], [1, 1]] = Except.ok ⟨0, 1⟩ := by
    have hrs : rowSums [[1, 1], [1, 1]] = [2, 2] := by decide
    have hcs : colSums [[1, 1], [1, 1]] = [2, 2] := by decide
    have hgt : grandTotal [[1, 1], [1, 1]] = 4 := by decide
    have hexp : expectedFreq [[1, 1], [1, 1]] = [[1, 1], [1, 1]] := by
      rw [expectedFreq, hrs, hcs, hgt]
      norm_num
    have hdof : dofOf [[1, 1], [1, 1]] = 1 := by decide
    rw [chi2_contingency]
    rw [if_neg (by decide), hexp, hdof]
    norm_num [yatesAdjust, pearsonStat, npSign]
  have hyp : contingency_analysis dsMix Species.RGS = Except.ok ⟨0, 1⟩ := by
    rw [contingency_analysis, htab, hchi]
  exact ⟨hyp, C8_chi2_outputs dsMix Species.RGS ⟨0, 1⟩ hyp⟩
